import Mathlib

/-!
Verification development for the OT-2 standard-offsets deployment tool
(`apply_standard_offsets.py`).  The Python source is shallowly embedded:
JSON template documents become structures whose optional fields mirror the
dictionary `get` accesses, fallible builders return `Except`, and the
remote-apply flow is embedded as the structured command list of the combined
remote script plus an effect trace of the network-touching operations.
-/

namespace ApplyStandardOffsets

/-- Provenance/status block carried by calibration templates and records.
Mirrors the JSON object with keys `markedBad`, `source`, `markedAt`. -/
structure CalStatus where
  markedBad : Bool
  source : Option String
  markedAt : Option String
deriving DecidableEq, Repr

/-- The default status block the builders substitute when a template omits
`status`: markedBad false, source null, markedAt null. -/
def defaultStatus : CalStatus := { markedBad := false, source := none, markedAt := none }

/-- Python truthiness of an `Optional[str]`: `None` and the empty string are
falsy, every other string is truthy. -/
def pyTruthyStr (o : Option String) : Bool := o.getD "" ≠ ""

/-- Python `str.strip()`: drop whitespace from both ends.  Written over the
character list so that concrete instances evaluate by kernel reduction. -/
def pyStrip (s : String) : String :=
  ⟨((s.data.dropWhile Char.isWhitespace).reverse.dropWhile Char.isWhitespace).reverse⟩

/-- Python `str.lower()`: lowercase every character.  Written over the
character list so that concrete instances evaluate by kernel reduction. -/
def pyLower (s : String) : String := ⟨s.data.map Char.toLower⟩

/-- Python truthiness of an optional JSON array value (the attitude matrix):
absent (`None`) and the empty list are falsy. -/
def pyTruthyMat (o : Option (List (List ℚ))) : Bool :=
  match o with
  | none => false
  | some m => !m.isEmpty

/-- The failure categories of the builders and the staging planner.  The
Python code raises `RuntimeError` at each site; the categories follow the
raise sites: missing template entry, malformed deck template, no attached
pipettes. -/
inductive CalError
  | templateNotFound
  | schemaMismatch
  | noInstruments
deriving DecidableEq, Repr

/-- One entry of the pipette-offset template document (an element of its
`data` list).  Optional fields mirror `entry.get(...)` accesses; `offset`
and `tiprack` are accessed by mandatory indexing in the source. -/
structure PipetteEntry where
  mount : Option String
  offset : List ℚ
  tiprack : String
  tiprackUri : Option String
  uri : Option String
  source : Option String
  status : Option CalStatus
deriving DecidableEq, Repr

/-- The pipette-offset template document: `{"data": [...]}`. -/
structure PipetteOffsetsDoc where
  data : List PipetteEntry
deriving DecidableEq, Repr

/-- One entry of the tip-length template document. `pipette` is optional
(read via `entry.get("pipette", "")`); `uri`, `tipLength` and `tiprack` are
mandatory indexed fields. -/
structure TipEntry where
  pipette : Option String
  uri : String
  tipLength : ℚ
  tiprack : String
  source : Option String
  status : Option CalStatus
deriving DecidableEq, Repr

/-- The tip-length template document: `{"data": [...]}`. -/
structure TipLengthsDoc where
  data : List TipEntry
deriving DecidableEq, Repr

/-- The deck-calibration dictionary after unwrapping, with the fields the
builder reads via `deck.get(...)`.  Both legacy attitude spellings and both
pipette-calibrated-with spellings are separate optional fields, as in the
JSON object. -/
structure DeckDict where
  attitude : Option (List (List ℚ))
  matrix : Option (List (List ℚ))
  source : Option String
  pipette_calibrated_with : Option String
  pipetteCalibratedWith : Option String
  tiprack : Option String
  status : Option CalStatus
deriving DecidableEq, Repr

/-- The deck template document shape: either nested
`{"deckCalibration": {"data": {...}}}` or the flat dictionary itself. -/
inductive DeckSource
  | nested (d : DeckDict)
  | flat (d : DeckDict)
deriving DecidableEq, Repr

/-- The unwrap step of `_build_deck_file`: take `deck_source["deckCalibration"]["data"]`
when the nesting key is present, otherwise the document itself. -/
def DeckSource.unwrap : DeckSource → DeckDict
  | .nested d => d
  | .flat d => d

/-- Canonical on-disk pipette-offset record built by `_build_pipette_file`. -/
structure PipetteFile where
  offset : List ℚ
  tiprack : String
  uri : String
  last_modified : String
  source : String
  status : CalStatus
deriving DecidableEq, Repr

/-- Canonical on-disk tip-length record built by `_build_tip_length_file`
(the single-key object `{uri: {...}}` is modelled with `uri` as a field). -/
structure TipLengthFile where
  uri : String
  tipLength : ℚ
  lastModified : String
  source : String
  status : CalStatus
  definitionHash : String
deriving DecidableEq, Repr

/-- Canonical on-disk deck-calibration record built by `_build_deck_file`. -/
structure DeckFile where
  attitude : List (List ℚ)
  last_modified : String
  source : String
  pipette_calibrated_with : String
  tiprack : Option String
  status : CalStatus
deriving DecidableEq, Repr

/-- Embedding of `_build_pipette_file`; `now` stands for `_utc_now()`. -/
def buildPipetteFile (now : String) (t : PipetteEntry) : PipetteFile :=
  { offset := t.offset
    tiprack := t.tiprack
    uri := t.tiprackUri.getD (t.uri.getD "")
    last_modified := now
    source := t.source.getD "user"
    status := t.status.getD defaultStatus }

/-- Embedding of `_build_tip_length_file`; `now` stands for `_utc_now()`. -/
def buildTipLengthFile (now : String) (t : TipEntry) : TipLengthFile :=
  { uri := t.uri
    tipLength := t.tipLength
    lastModified := now
    source := t.source.getD "user"
    status := t.status.getD defaultStatus
    definitionHash := t.tiprack }

/-- Embedding of `_build_deck_file`: unwrap the nested-vs-flat shape, take
`deck.get("attitude") or deck.get("matrix")` (Python `or`, so a present but
empty attitude list falls through to `matrix`), raise when the combined
value is falsy, otherwise assemble the record.  `now` stands for
`_utc_now()`. -/
def buildDeckFile (now : String) (deckSource : DeckSource) (defaultPipette : String) :
    Except CalError DeckFile :=
  let deck := deckSource.unwrap
  match (if pyTruthyMat deck.attitude then deck.attitude else deck.matrix) with
  | none => .error .schemaMismatch
  | some m =>
    if m.isEmpty then .error .schemaMismatch
    else
      .ok { attitude := m
            last_modified := now
            source := deck.source.getD "user"
            pipette_calibrated_with :=
              deck.pipette_calibrated_with.getD (deck.pipetteCalibratedWith.getD defaultPipette)
            tiprack := deck.tiprack
            status := deck.status.getD defaultStatus }

/-- Embedding of `_find_template_by_mount`: first entry whose lowercased
`mount` field equals the requested mount, else `TemplateNotFoundError`. -/
def findTemplateByMount (doc : PipetteOffsetsDoc) (mount : String) :
    Except CalError PipetteEntry :=
  match doc.data.find? (fun e => pyLower (e.mount.getD "") == mount) with
  | some e => .ok e
  | none => .error .templateNotFound

/-- Embedding of `_find_tip_template_for_pipette`: when the preferred serial
is truthy, first entry whose stripped `pipette` field equals it; otherwise,
or when nothing matched, the first entry of `data`; error when `data` is
empty. -/
def findTipTemplateForPipette (doc : TipLengthsDoc) (preferredSerial : Option String) :
    Except CalError TipEntry :=
  match (if pyTruthyStr preferredSerial then
      doc.data.find? (fun e => pyStrip (e.pipette.getD "") == preferredSerial.getD "")
    else none) with
  | some e => .ok e
  | none =>
    match doc.data with
    | [] => .error .templateNotFound
    | e :: _ => .ok e

/-- One entry of the `/instruments` response `data` list.  The payload also
carries an operational flag `ok`; it is part of the response shape, and the
embedding records it so that statements about it can be made, while the
source function reads only `instrumentType`, `mount` and `serialNumber`. -/
structure InstrumentEntry where
  instrumentType : Option String
  mount : Option String
  serialNumber : Option String
  ok : Option Bool
deriving DecidableEq, Repr

/-- The `{mount: serial}` dictionary built by `_attached_pipette_serials`,
restricted to its two possible keys. -/
structure MountSerials where
  left : Option String
  right : Option String
deriving DecidableEq, Repr

/-- One iteration of the `_attached_pipette_serials` loop: skip non-pipette
entries, lowercase the mount, strip the serial, and record the serial under
the mount when the mount is left/right and the serial is non-empty (a later
entry for the same mount overwrites an earlier one, as in the dict). -/
def bindInstrument (acc : MountSerials) (item : InstrumentEntry) : MountSerials :=
  if item.instrumentType.getD "" ≠ "pipette" then acc
  else
    let mount := pyLower (item.mount.getD "")
    let serial := pyStrip (item.serialNumber.getD "")
    if (mount == "left" || mount == "right") && serial ≠ "" then
      if mount == "left" then { acc with left := some serial }
      else { acc with right := some serial }
    else acc

/-- Embedding of `_attached_pipette_serials` over an already-decoded
`/instruments` `data` list. -/
def attachedPipetteSerials (data : List InstrumentEntry) : MountSerials :=
  data.foldl bindInstrument { left := none, right := none }

/-- The commands of the combined remote apply script built in
`_remote_apply` (lines 288-321), in source order.  Each constructor stands
for one script line; the per-mount copies carry the serial that names the
staged and canonical files. -/
inductive ScriptCmd
  | setShellFlags
  | makeCanonicalDirs
  | resolveCalDir
  | copyDeckToCalDir
  | copyDeckToCanonical
  | validateDeck
  | copyPipetteLeft (serial : String)
  | copyPipetteRight (serial : String)
  | copyTipLengthLeft (serial : String)
  | copyTipLengthRight (serial : String)
deriving DecidableEq, Repr

/-- A command that copies a staged file to a canonical final path (the deck
copies and every per-mount copy). -/
def ScriptCmd.isCanonicalCopy : ScriptCmd → Bool
  | .copyDeckToCalDir => true
  | .copyDeckToCanonical => true
  | .copyPipetteLeft _ => true
  | .copyPipetteRight _ => true
  | .copyTipLengthLeft _ => true
  | .copyTipLengthRight _ => true
  | _ => false

/-- A per-mount copy command (pipette-offset or tip-length file). -/
def ScriptCmd.isPerMountCopy : ScriptCmd → Bool
  | .copyPipetteLeft _ => true
  | .copyPipetteRight _ => true
  | .copyTipLengthLeft _ => true
  | .copyTipLengthRight _ => true
  | _ => false

/-- The command list of the combined remote script, mirroring how
`_remote_apply` assembles `script_lines`: the fixed six-line prefix
(shell flags, canonical mkdir, CAL_DIR resolution, conditional deck copy to
CAL_DIR, deck copy to `/data/robot/deck_calibration.json`, deck validator
invocation), then the conditional per-mount copies in source order.  The
guards mirror `if left_serial and local_left:` etc.; a local path is a
`Path | None` value, truthy exactly when present. -/
def scriptCmds (localLeft localRight localTipLeft localTipRight : Option String)
    (leftSerial rightSerial : Option String) : List ScriptCmd :=
  [.setShellFlags, .makeCanonicalDirs, .resolveCalDir, .copyDeckToCalDir,
   .copyDeckToCanonical, .validateDeck]
  ++ (if pyTruthyStr leftSerial && localLeft.isSome then
        [.copyPipetteLeft (leftSerial.getD "")] else [])
  ++ (if pyTruthyStr rightSerial && localRight.isSome then
        [.copyPipetteRight (rightSerial.getD "")] else [])
  ++ (if pyTruthyStr leftSerial && localTipLeft.isSome then
        [.copyTipLengthLeft (leftSerial.getD "")] else [])
  ++ (if pyTruthyStr rightSerial && localTipRight.isSome then
        [.copyTipLengthRight (rightSerial.getD "")] else [])

/-- The remote staging directory of one run: `f"/data/{args.remote_tag}"`. -/
def remoteTmpDir (remoteTag : String) : String := "/data/" ++ remoteTag

/-- The default of the `--remote-tag` option. -/
def defaultRemoteTag : String := "standard-offsets-upload"

/-- An invocation of the tool as far as staging is concerned: the remote tag
it runs with, plus an index that merely distinguishes two concurrent or
successive runs from each other (the program itself has no such input — the
staging directory depends on the tag alone, which is what the collision
statements are about). -/
structure Invocation where
  remoteTag : String
  runIndex : Nat
deriving DecidableEq, Repr

/-- The staging directory an invocation uses. -/
def Invocation.stagingDir (inv : Invocation) : String := remoteTmpDir inv.remoteTag

/-- Externally visible operations of one run: an HTTP request to the robot
API, a remote shell command over SSH, an upload over the SSH channel, or a
local helper subprocess. -/
inductive Effect
  | httpGet (url : String)
  | sshExec (cmd : String)
  | sshUpload (dst : String)
  | runHelper (helper : String)
deriving DecidableEq, Repr

/-- Operations that use the SSH remote-shell channel (commands and uploads). -/
def Effect.isRemoteShell : Effect → Bool
  | .sshExec _ => true
  | .sshUpload _ => true
  | _ => false

/-- Operations that touch the network at all (HTTP requests and everything
over SSH; a helper subprocess is modelled as local). -/
def Effect.isNetwork : Effect → Bool
  | .runHelper _ => false
  | _ => true

/-- URL of the robot-server health endpoint. -/
def healthUrl (host : String) (apiPort : Nat) : String :=
  "http://" ++ host ++ ":" ++ toString apiPort ++ "/health"

/-- URL of the robot-server instruments endpoint. -/
def instrumentsUrl (host : String) (apiPort : Nat) : String :=
  "http://" ++ host ++ ":" ++ toString apiPort ++ "/instruments"

/-- Effect trace of `_remote_apply` (lines 324-338): under the dry-run flag
it only prints and returns, so the trace is empty; otherwise it creates the
staging directory, uploads each staged file, runs the combined script, and,
when the restart policy is on, restarts robot-server and polls the health
endpoint (the poll loop is represented by its health probe). -/
def remoteApplyEffects (dryRun : Bool) (remoteTag : String) (uploadDsts : List String)
    (restartServer : Bool) (host : String) (apiPort : Nat) : List Effect :=
  if dryRun then []
  else
    [.sshExec ("mkdir -p " ++ remoteTmpDir remoteTag)]
    ++ uploadDsts.map Effect.sshUpload
    ++ [.sshExec "remote apply script"]
    ++ (if restartServer then
          [.sshExec "systemctl restart opentrons-robot-server",
           .httpGet (healthUrl host apiPort)]
        else [])

/-- Effect trace of `main` for a run that reaches `_remote_apply`: optional
host resolution helper, the `/health` query of `_robot_name` (line 477), the
SSH-key helper only when no key is at hand, auto-ensure is on and the run is
not a dry run (line 493), the SSH preflight only when not a dry run
(lines 543-544), the unconditional `/instruments` query (line 546), then the
`_remote_apply` trace. -/
def mainEffects (dryRun hostGiven haveKey autoEnsure restartServer : Bool)
    (host : String) (apiPort : Nat) (remoteTag : String) (uploadDsts : List String) :
    List Effect :=
  (if hostGiven then [] else [.runHelper "ot2_resolve_host.py"])
  ++ [.httpGet (healthUrl host apiPort)]
  ++ (if !haveKey && autoEnsure && !dryRun then [.runHelper "ot2_ensure_ssh_key.py"] else [])
  ++ (if !dryRun then [.sshExec "preflight true"] else [])
  ++ [.httpGet (instrumentsUrl host apiPort)]
  ++ remoteApplyEffects dryRun remoteTag uploadDsts restartServer host apiPort

/-- The staged local payloads `main` prepares in its temporary directory:
optional per-mount pipette-offset and tip-length files (file name plus
content) and the deck file. -/
structure StagedPlan where
  leftPipette : Option (String × PipetteFile)
  leftTip : Option (String × TipLengthFile)
  rightPipette : Option (String × PipetteFile)
  rightTip : Option (String × TipLengthFile)
  deck : String × DeckFile
deriving DecidableEq, Repr

/-- Embedding of the staging-preparation part of `main` (lines 546-586): the
no-instruments precondition, then per mount the pipette-offset template
lookup and build and the tip-length template lookup and build, then the deck
build with default pipette `right_serial or left_serial or ""`.  The first
failing lookup aborts the rest, exactly as the Python exception does. -/
def prepareStagedFiles (now : String) (pipetteTpl : PipetteOffsetsDoc)
    (tipTpl : TipLengthsDoc) (deckTpl : DeckSource)
    (leftSerial rightSerial : Option String) : Except CalError StagedPlan := do
  if !pyTruthyStr leftSerial && !pyTruthyStr rightSerial then
    throw CalError.noInstruments
  let leftFiles ←
    if pyTruthyStr leftSerial then do
      let ls := leftSerial.getD ""
      let lp ← findTemplateByMount pipetteTpl "left"
      let lt ← findTipTemplateForPipette tipTpl leftSerial
      pure (some (ls ++ ".left.pipette.json", buildPipetteFile now lp),
            some (ls ++ ".tip_lengths.json", buildTipLengthFile now lt))
    else pure (none, none)
  let rightFiles ←
    if pyTruthyStr rightSerial then do
      let rs := rightSerial.getD ""
      let rp ← findTemplateByMount pipetteTpl "right"
      let rt ← findTipTemplateForPipette tipTpl rightSerial
      pure (some (rs ++ ".right.pipette.json", buildPipetteFile now rp),
            some (rs ++ ".tip_lengths.json", buildTipLengthFile now rt))
    else pure (none, none)
  let defaultPipette :=
    if pyTruthyStr rightSerial then rightSerial.getD ""
    else if pyTruthyStr leftSerial then leftSerial.getD "" else ""
  let deckFile ← buildDeckFile now deckTpl defaultPipette
  pure { leftPipette := leftFiles.1
         leftTip := leftFiles.2
         rightPipette := rightFiles.1
         rightTip := rightFiles.2
         deck := ("deck_calibration.json", deckFile) }

/-- The names of the files a planning outcome would upload: nothing when
planning failed (the exception propagates before `_remote_apply` is ever
called), otherwise the `to_copy` order of `_remote_apply`: deck first, then
left/right pipette, then left/right tip files. -/
def plannedUploadNames : Except CalError StagedPlan → List String
  | .error _ => []
  | .ok p =>
    [p.deck.1]
    ++ (p.leftPipette.map Prod.fst).toList
    ++ (p.rightPipette.map Prod.fst).toList
    ++ (p.leftTip.map Prod.fst).toList
    ++ (p.rightTip.map Prod.fst).toList

/-- Outcome of the readiness wait loop: the server answered (after the given
number of probes), the deadline passed (with the raised detail text and the
number of probes issued before raising), or the supplied probe schedule ran
out before either happened. -/
inductive WaitOutcome
  | ready (probesUsed : Nat)
  | timedOut (detail : String) (probesUsed : Nat)
  | exhausted (probesUsed : Nat)
deriving DecidableEq, Repr

/-- The default detail used when no probe failure was observed yet. -/
def defaultWaitDetail : String := "timeout waiting for /health"

/-- Embedding of the `_wait_for_robot_server_ready` loop.  A probe schedule
entry is `(result, duration)`: `none` means the health request succeeded,
`some e` that it failed with detail `e`, and `duration` is the time the
failed attempt plus the fixed sleep consume.  Each iteration first compares
elapsed time strictly against the timeout (raising with the last observed
detail, or the default when none exists), then issues the next probe.  No
time elapses between recording the start time and the first comparison. -/
def waitLoop (timeoutSeconds : Int) :
    List (Option String × Int) → Int → Option String → Nat → WaitOutcome
  | probes, elapsed, lastErr, used =>
    if elapsed > timeoutSeconds then
      .timedOut (lastErr.getD defaultWaitDetail) used
    else
      match probes with
      | [] => .exhausted used
      | (result, dur) :: rest =>
        match result with
        | none => .ready (used + 1)
        | some e => waitLoop timeoutSeconds rest (elapsed + dur) (some e) (used + 1)

/-- `_wait_for_robot_server_ready` from its start: elapsed 0, no observed
failure, no probes issued. -/
def waitForReady (timeoutSeconds : Int) (probes : List (Option String × Int)) : WaitOutcome :=
  waitLoop timeoutSeconds probes 0 none 0

/-! ## Claim theorems -/

/-- A tip-length template entry bound to a serial, with neutral geometry
fields, used in concrete witnesses. -/
def tipEntryFor (s : String) : TipEntry :=
  { pipette := some s, uri := "uri-" ++ s, tipLength := 50, tiprack := "hash-" ++ s,
    source := none, status := none }

/-- Claim C3: tip-length template selection.  When the preferred serial is
truthy and some entry matches it (on the stripped bound-pipette field, as the
code reads it), the first such entry is returned; when the preferred serial
is falsy or nothing matches, the first entry of the set is returned without
error; when the set is empty, the lookup fails with the template-not-found
error. -/
theorem tip_template_selection (doc : TipLengthsDoc) (pref : Option String) :
    (pyTruthyStr pref = true →
      ∀ e, doc.data.find? (fun t => pyStrip (t.pipette.getD "") == pref.getD "") = some e →
        findTipTemplateForPipette doc pref = .ok e)
    ∧ ((pyTruthyStr pref = false ∨
        doc.data.find? (fun t => pyStrip (t.pipette.getD "") == pref.getD "") = none) →
      ∀ e rest, doc.data = e :: rest → findTipTemplateForPipette doc pref = .ok e)
    ∧ (doc.data = [] → findTipTemplateForPipette doc pref = .error .templateNotFound) := by
  refine ⟨?_, ?_, ?_⟩
  · intro hp e hfind
    simp [findTipTemplateForPipette, hp, hfind]
  · intro h e rest hdata
    rcases h with h | h
    · simp [findTipTemplateForPipette, h, hdata]
    · rw [hdata] at h
      simp [findTipTemplateForPipette, h, hdata]
  · intro hdata
    rcases h : pyTruthyStr pref with _ | _
    · simp [findTipTemplateForPipette, h, hdata]
    · simp [findTipTemplateForPipette, h, hdata]

/-- Witness for C3, instantiating the fallback sentence of the claim: a set
with entries bound to serials S1 and S2 and preferred serial S3 yields the
S1 entry, and an empty set fails. -/
theorem tip_template_selection_witness :
    findTipTemplateForPipette ⟨[tipEntryFor "S1", tipEntryFor "S2"]⟩ (some "S3")
      = .ok (tipEntryFor "S1")
    ∧ findTipTemplateForPipette ⟨[]⟩ (some "S3") = .error .templateNotFound :=
  ⟨(tip_template_selection ⟨[tipEntryFor "S1", tipEntryFor "S2"]⟩ (some "S3")).2.1
      (Or.inr rfl) (tipEntryFor "S1") [tipEntryFor "S2"] rfl,
   (tip_template_selection ⟨[]⟩ (some "S3")).2.2 rfl⟩

/-- Claim C4: schema-variant equivalence.  For any attitude matrix value and
otherwise identical deck dictionaries, the builder produces the same result
(with the timestamp held fixed) whether the matrix sits under the legacy
field `attitude` or under `matrix`. -/
theorem deck_schema_variant_equivalence (now : String) (M : List (List ℚ))
    (src pcw camel tr : Option String) (st : Option CalStatus) (dp : String) :
    buildDeckFile now
      (.flat { attitude := some M, matrix := none, source := src,
               pipette_calibrated_with := pcw, pipetteCalibratedWith := camel,
               tiprack := tr, status := st }) dp
    = buildDeckFile now
      (.flat { attitude := none, matrix := some M, source := src,
               pipette_calibrated_with := pcw, pipetteCalibratedWith := camel,
               tiprack := tr, status := st }) dp := by
  cases M <;> simp [buildDeckFile, DeckSource.unwrap, pyTruthyMat]

/-- A deck dictionary whose `attitude` key is present but holds an empty
list, for the C5 counterexample. -/
def emptyAttitudeDeck : DeckDict :=
  { attitude := some [], matrix := none, source := none,
    pipette_calibrated_with := none, pipetteCalibratedWith := none,
    tiprack := none, status := none }

/-- Counterexample for C5: the claim says the schema error is raised exactly
when neither legacy attitude field name is present, but a template whose
`attitude` key IS present with an empty (Python-falsy) list also fails with
the schema-mismatch error. -/
theorem deck_error_despite_attitude_present :
    buildDeckFile "T0" (.flat emptyAttitudeDeck) "" = .error .schemaMismatch
    ∧ emptyAttitudeDeck.attitude.isSome = true := by
  constructor
  · rfl
  · rfl

/-- Claim C5 (amended): after unwrapping, the deck builder fails with the
schema-mismatch error exactly when neither `attitude` nor `matrix` holds a
truthy (present and non-empty) value; the attitude matrix is never
defaulted. -/
theorem deck_schema_error_iff (now : String) (deckSource : DeckSource) (dp : String) :
    buildDeckFile now deckSource dp = .error .schemaMismatch
      ↔ pyTruthyMat deckSource.unwrap.attitude = false
        ∧ pyTruthyMat deckSource.unwrap.matrix = false := by
  rcases h : deckSource.unwrap.attitude with _ | m
  · rcases h2 : deckSource.unwrap.matrix with _ | m2
    · simp [buildDeckFile, h, h2, pyTruthyMat]
    · cases m2 <;> simp [buildDeckFile, h, h2, pyTruthyMat]
  · rcases h2 : deckSource.unwrap.matrix with _ | m2
    · cases m <;> simp [buildDeckFile, h, h2, pyTruthyMat]
    · cases m <;> cases m2 <;> simp [buildDeckFile, h, h2, pyTruthyMat]

/-- Claim C9: the pipette-calibrated-with field of a successfully built deck
record follows key-presence precedence: the snake_case field when that key
is present, else the camelCase field when that key is present, else the
caller-supplied default serial. -/
theorem deck_pipette_calibrated_with_precedence (now : String) (deckSource : DeckSource)
    (dp : String) (f : DeckFile) (h : buildDeckFile now deckSource dp = .ok f) :
    (∀ v, deckSource.unwrap.pipette_calibrated_with = some v →
        f.pipette_calibrated_with = v)
    ∧ (deckSource.unwrap.pipette_calibrated_with = none →
        ∀ v, deckSource.unwrap.pipetteCalibratedWith = some v →
          f.pipette_calibrated_with = v)
    ∧ (deckSource.unwrap.pipette_calibrated_with = none →
        deckSource.unwrap.pipetteCalibratedWith = none →
          f.pipette_calibrated_with = dp) := by
  have hf : f.pipette_calibrated_with =
      deckSource.unwrap.pipette_calibrated_with.getD
        (deckSource.unwrap.pipetteCalibratedWith.getD dp) := by
    rcases ha : (if pyTruthyMat deckSource.unwrap.attitude then deckSource.unwrap.attitude
        else deckSource.unwrap.matrix) with _ | m
    · simp [buildDeckFile, ha] at h
    · by_cases he : m.isEmpty
      · simp [buildDeckFile, ha, he] at h
      · simp [buildDeckFile, ha, he] at h
        rw [← h]
  refine ⟨?_, ?_, ?_⟩
  · intro v hv; rw [hf, hv]; rfl
  · intro h1 v hv; rw [hf, h1, hv]; rfl
  · intro h1 h2; rw [hf, h1, h2]; rfl

/-- A flat deck template with identity attitude and an explicit snake_case
pipette-calibrated-with field, for the C9 witness. -/
def snakeCaseDeck : DeckDict :=
  { attitude := some [[1, 0, 0], [0, 1, 0], [0, 0, 1]], matrix := none, source := none,
    pipette_calibrated_with := some "PS", pipetteCalibratedWith := some "PC",
    tiprack := none, status := none }

/-- Witness for C9: on a concrete template carrying both spellings, the
snake_case value wins over the camelCase one and over the default. -/
theorem deck_pipette_calibrated_with_precedence_witness :
    (buildDeckFile "T1" (.flat snakeCaseDeck) "DFLT")
      = .ok { attitude := [[1, 0, 0], [0, 1, 0], [0, 0, 1]], last_modified := "T1",
              source := "user", pipette_calibrated_with := "PS", tiprack := none,
              status := defaultStatus }
    ∧ ({ attitude := [[1, 0, 0], [0, 1, 0], [0, 0, 1]], last_modified := "T1",
         source := "user", pipette_calibrated_with := "PS", tiprack := none,
         status := defaultStatus } : DeckFile).pipette_calibrated_with = "PS" := by
  refine ⟨rfl, ?_⟩
  exact (deck_pipette_calibrated_with_precedence "T1" (.flat snakeCaseDeck) "DFLT"
    _ rfl).1 "PS" rfl

/-- Claim C6: pipette-offset template selection by mount.  The builder
returns the first entry whose (lowercased) mount field matches the requested
mount, fails with the template-not-found error when no entry matches, and a
failed mount lookup inside staging preparation makes the whole plan fail, so
no upload is performed. -/
theorem mount_template_selection (doc : PipetteOffsetsDoc) (mount : String) :
    (∀ e, doc.data.find? (fun t => pyLower (t.mount.getD "") == mount) = some e →
        findTemplateByMount doc mount = .ok e)
    ∧ (doc.data.find? (fun t => pyLower (t.mount.getD "") == mount) = none →
        findTemplateByMount doc mount = .error .templateNotFound)
    ∧ (∀ now tipTpl deckTpl rs,
        doc.data.find? (fun t => pyLower (t.mount.getD "") == "right") = none →
        pyTruthyStr rs = true →
        prepareStagedFiles now doc tipTpl deckTpl none rs = .error .templateNotFound
        ∧ plannedUploadNames (prepareStagedFiles now doc tipTpl deckTpl none rs) = []) := by
  refine ⟨?_, ?_, ?_⟩
  · intro e hfind
    simp [findTemplateByMount, hfind]
  · intro hfind
    simp [findTemplateByMount, hfind]
  · intro now tipTpl deckTpl rs hfind hrs
    have hne : rs.getD "" ≠ "" := by simpa [pyTruthyStr] using hrs
    have hplan : prepareStagedFiles now doc tipTpl deckTpl none rs
        = .error .templateNotFound := by
      simp only [prepareStagedFiles, pyTruthyStr, hne, findTemplateByMount, hfind]
      simp [hne, Bind.bind, Except.bind, Pure.pure, Except.pure]
    exact ⟨hplan, by rw [hplan]; rfl⟩

/-- A pipette-offset template entry for the given mount, used in concrete
witnesses. -/
def pipetteEntryFor (mount : String) : PipetteEntry :=
  { mount := some mount, offset := [0, 0, 0], tiprack := "rack", tiprackUri := some "rackuri",
    uri := none, source := none, status := none }

/-- Witness for C6: a template set containing only a left entry, asked to
stage for an attached right pipette, fails with the template-not-found error
and plans no uploads. -/
theorem mount_template_selection_witness :
    prepareStagedFiles "T2" ⟨[pipetteEntryFor "left"]⟩ ⟨[tipEntryFor "R9"]⟩
        (.flat snakeCaseDeck) none (some "R9") = .error .templateNotFound
    ∧ plannedUploadNames (prepareStagedFiles "T2" ⟨[pipetteEntryFor "left"]⟩
        ⟨[tipEntryFor "R9"]⟩ (.flat snakeCaseDeck) none (some "R9")) = [] :=
  (mount_template_selection ⟨[pipetteEntryFor "left"]⟩ "right").2.2
    "T2" ⟨[tipEntryFor "R9"]⟩ (.flat snakeCaseDeck) (some "R9") rfl rfl

/-- Claim C7 (amended): an instrument entry contributes a binding only when
it is of pipette instrument type, its lowercased mount is left or right, and
its stripped serial is non-empty — and whenever those three conditions hold
the entry is indeed bound, its stripped serial recorded under its mount; the
operational flag of the entry is never consulted, so changing it never
changes the bound serials. -/
theorem instrument_binding_conditions :
    (∀ acc item, ¬(item.instrumentType.getD "" = "pipette"
        ∧ (pyLower (item.mount.getD "") = "left" ∨ pyLower (item.mount.getD "") = "right")
        ∧ pyStrip (item.serialNumber.getD "") ≠ "") →
      bindInstrument acc item = acc)
    ∧ (∀ acc item, item.instrumentType.getD "" = "pipette" →
        pyLower (item.mount.getD "") = "left" →
        pyStrip (item.serialNumber.getD "") ≠ "" →
        bindInstrument acc item
          = { acc with left := some (pyStrip (item.serialNumber.getD "")) })
    ∧ (∀ acc item, item.instrumentType.getD "" = "pipette" →
        pyLower (item.mount.getD "") = "right" →
        pyStrip (item.serialNumber.getD "") ≠ "" →
        bindInstrument acc item
          = { acc with right := some (pyStrip (item.serialNumber.getD "")) })
    ∧ (∀ data b,
        attachedPipetteSerials (data.map (fun it => { it with ok := b }))
          = attachedPipetteSerials data) := by
  refine ⟨?_, ?_, ?_, ?_⟩
  · intro acc item hno
    by_cases ht : item.instrumentType.getD "" = "pipette"
    · by_cases hm : (pyLower (item.mount.getD "") = "left"
          ∨ pyLower (item.mount.getD "") = "right")
      · by_cases hs : pyStrip (item.serialNumber.getD "") = ""
        · simp only [bindInstrument, ht]
          simp [hs]
        · exact absurd ⟨ht, hm, hs⟩ hno
      · simp only [bindInstrument, ht]
        push_neg at hm
        simp [hm.1, hm.2]
    · simp [bindInstrument, ht]
  · intro acc item ht hm hs
    simp [bindInstrument, ht, hm, hs]
  · intro acc item ht hm hs
    simp [bindInstrument, ht, hm, hs]
  · intro data b
    have hitem : ∀ acc it, bindInstrument acc { it with ok := b } = bindInstrument acc it := by
      intro acc it; cases it; rfl
    have haux : ∀ (l : List InstrumentEntry) (acc : MountSerials),
        (l.map (fun it => { it with ok := b })).foldl bindInstrument acc
          = l.foldl bindInstrument acc := by
      intro l
      induction l with
      | nil => intro acc; rfl
      | cons x xs ih =>
        intro acc
        simp only [List.map_cons, List.foldl_cons, hitem]
        exact ih _
    exact haux data _

/-- Witness for C7 (amended): a non-pipette entry leaves the bindings
untouched, a left-mounted pipette with a non-empty serial is bound under
the left mount, and flipping the operational flag across a whole payload
leaves the bound serials unchanged. -/
theorem instrument_binding_conditions_witness :
    bindInstrument { left := none, right := none }
        { instrumentType := some "gripper", mount := some "left",
          serialNumber := some "G1", ok := some true }
      = { left := none, right := none }
    ∧ bindInstrument { left := none, right := none }
        { instrumentType := some "pipette", mount := some "left",
          serialNumber := some "S1", ok := some true }
      = { left := some (pyStrip "S1"), right := none }
    ∧ attachedPipetteSerials
        ([({ instrumentType := some "pipette", mount := some "left",
             serialNumber := some "S1", ok := some true } : InstrumentEntry)].map
          (fun it => { it with ok := some false }))
      = attachedPipetteSerials
        [{ instrumentType := some "pipette", mount := some "left",
           serialNumber := some "S1", ok := some true }] :=
  ⟨instrument_binding_conditions.1 ({ left := none, right := none } : MountSerials)
      ({ instrumentType := some "gripper", mount := some "left",
         serialNumber := some "G1", ok := some true } : InstrumentEntry) (by decide),
   instrument_binding_conditions.2.1 ({ left := none, right := none } : MountSerials)
      ({ instrumentType := some "pipette", mount := some "left",
         serialNumber := some "S1", ok := some true } : InstrumentEntry)
      (by decide) (by decide) (by decide),
   instrument_binding_conditions.2.2.2
      [({ instrumentType := some "pipette", mount := some "left",
          serialNumber := some "S1", ok := some true } : InstrumentEntry)] (some false)⟩

/-- A pipette entry in the `/instruments` payload whose operational flag is
false. -/
def nonOperationalPipette : InstrumentEntry :=
  { instrumentType := some "pipette", mount := some "left",
    serialNumber := some "S1", ok := some false }

/-- Counterexample for C7: an entry explicitly flagged non-operational is
still bound (the code never reads the flag), so operational flagging is not
a binding condition. -/
theorem instrument_binding_ignores_ok_flag :
    attachedPipetteSerials [nonOperationalPipette] = { left := some "S1", right := none }
    ∧ nonOperationalPipette.ok = some false := ⟨rfl, rfl⟩

/-- Counterexample for C1: in the generated remote script the deck validator
invocation does NOT come after every copy-to-canonical-path command.  With a
left pipette attached, the script is the fixed prefix ending in the
validator, followed by the left pipette-offset and tip-length copies — both
canonical-path copies placed after the validator. -/
theorem validator_precedes_mount_copies :
    scriptCmds (some "lp.json") none (some "lt.json") none (some "L1") none
      = [.setShellFlags, .makeCanonicalDirs, .resolveCalDir, .copyDeckToCalDir,
         .copyDeckToCanonical, .validateDeck, .copyPipetteLeft "L1",
         .copyTipLengthLeft "L1"]
    ∧ (scriptCmds (some "lp.json") none (some "lt.json") none
        (some "L1") none).get? 5 = some .validateDeck
    ∧ (scriptCmds (some "lp.json") none (some "lt.json") none
        (some "L1") none).get? 6 = some (.copyPipetteLeft "L1")
    ∧ ScriptCmd.isCanonicalCopy (.copyPipetteLeft "L1") = true := by
  refine ⟨rfl, rfl, rfl, rfl⟩

/-- Claim C1 (amended): the generated script always starts with the fixed
six commands — shell flags, canonical mkdir, CAL_DIR resolution, the two
deck-calibration copies, then the validator — and everything after the
validator is a per-mount pipette-offset or tip-length copy.  So the deck
copies precede the validator, while the per-mount canonical copies follow
it. -/
theorem script_state_order
    (localLeft localRight localTipLeft localTipRight leftSerial rightSerial : Option String) :
    (scriptCmds localLeft localRight localTipLeft localTipRight
        leftSerial rightSerial).take 6
      = [.setShellFlags, .makeCanonicalDirs, .resolveCalDir, .copyDeckToCalDir,
         .copyDeckToCanonical, .validateDeck]
    ∧ ∀ c ∈ (scriptCmds localLeft localRight localTipLeft localTipRight
        leftSerial rightSerial).drop 6, c.isPerMountCopy = true := by
  constructor
  · rfl
  · intro c hc
    have hone : ∀ (b : Bool) (x : ScriptCmd),
        c ∈ (if b then [x] else ([] : List ScriptCmd)) → c = x := by
      intro b x h; cases b <;> simp_all
    have hd : (scriptCmds localLeft localRight localTipLeft localTipRight
          leftSerial rightSerial).drop 6
        = (if pyTruthyStr leftSerial && localLeft.isSome then
            [ScriptCmd.copyPipetteLeft (leftSerial.getD "")] else [])
          ++ (if pyTruthyStr rightSerial && localRight.isSome then
            [ScriptCmd.copyPipetteRight (rightSerial.getD "")] else [])
          ++ (if pyTruthyStr leftSerial && localTipLeft.isSome then
            [ScriptCmd.copyTipLengthLeft (leftSerial.getD "")] else [])
          ++ (if pyTruthyStr rightSerial && localTipRight.isSome then
            [ScriptCmd.copyTipLengthRight (rightSerial.getD "")] else []) := rfl
    rw [hd] at hc
    simp only [List.mem_append] at hc
    rcases hc with ((h | h) | h) | h
    · rw [hone _ _ h]; rfl
    · rw [hone _ _ h]; rfl
    · rw [hone _ _ h]; rfl
    · rw [hone _ _ h]; rfl

/-- Witness for C1 (amended): concrete instantiation with a left pipette;
the post-validator tail contains the left tip-length copy, a per-mount
copy. -/
theorem script_state_order_witness :
    (scriptCmds (some "lp.json") none (some "lt.json") none (some "L1") none).take 6
      = [.setShellFlags, .makeCanonicalDirs, .resolveCalDir, .copyDeckToCalDir,
         .copyDeckToCanonical, .validateDeck]
    ∧ ScriptCmd.isPerMountCopy (.copyTipLengthLeft "L1") = true :=
  ⟨(script_state_order (some "lp.json") none (some "lt.json") none (some "L1") none).1,
   (script_state_order (some "lp.json") none (some "lt.json") none (some "L1") none).2
     (.copyTipLengthLeft "L1") (by decide)⟩

/-- Counterexample for C2: two distinct runs (e.g. two successive operators)
that both use the default remote tag get the very same staging directory, so
it is not the case that every pair of invocations uses distinct temporary
remote directories. -/
theorem default_tag_runs_collide :
    (⟨defaultRemoteTag, 0⟩ : Invocation) ≠ (⟨defaultRemoteTag, 1⟩ : Invocation)
    ∧ Invocation.stagingDir ⟨defaultRemoteTag, 0⟩
        = Invocation.stagingDir ⟨defaultRemoteTag, 1⟩
    ∧ Invocation.stagingDir ⟨defaultRemoteTag, 0⟩ = "/data/standard-offsets-upload" := by
  refine ⟨by decide, rfl, by decide⟩

/-- Claim C2 (amended): the staging directory is a pure function of the
remote tag — two runs use distinct temporary remote directories exactly when
their tags differ, and nothing beyond the caller-supplied (or constant
default) tag scopes a run, so default-tag runs share
`/data/standard-offsets-upload`. -/
theorem staging_dir_determined_by_tag (t1 t2 : String) :
    (remoteTmpDir t1 = remoteTmpDir t2 ↔ t1 = t2)
    ∧ remoteTmpDir defaultRemoteTag = "/data/standard-offsets-upload" := by
  constructor
  · constructor
    · intro h
      rcases t1 with ⟨l1⟩
      rcases t2 with ⟨l2⟩
      have h2 : "/data/".data ++ l1 = "/data/".data ++ l2 := congrArg String.data h
      exact congrArg String.mk (List.append_cancel_left h2)
    · intro h; rw [h]
  · decide

/-- Counterexample for C8: a dry-run invocation still performs network
requests — the robot-name health query and the instrument-inventory query
go over HTTP even under the dry-run flag. -/
theorem dry_run_still_queries_http :
    Effect.httpGet (instrumentsUrl "10.0.0.5" 31950)
      ∈ mainEffects true true true true true "10.0.0.5" 31950 defaultRemoteTag []
    ∧ Effect.isNetwork (.httpGet (instrumentsUrl "10.0.0.5" 31950)) = true := by
  refine ⟨by decide, rfl⟩

/-- Claim C8 (amended): under the dry-run flag no remote-shell operation at
all is performed — no SSH command, no upload — and the remote-apply step
contributes nothing, but the invocation still issues the HTTP health and
instrument-inventory requests. -/
theorem dry_run_no_remote_shell (hostGiven haveKey autoEnsure restartServer : Bool)
    (host : String) (apiPort : Nat) (remoteTag : String) (uploadDsts : List String) :
    (mainEffects true hostGiven haveKey autoEnsure restartServer host apiPort
        remoteTag uploadDsts).filter Effect.isRemoteShell = []
    ∧ remoteApplyEffects true remoteTag uploadDsts restartServer host apiPort = []
    ∧ Effect.httpGet (healthUrl host apiPort)
        ∈ mainEffects true hostGiven haveKey autoEnsure restartServer host apiPort
            remoteTag uploadDsts
    ∧ Effect.httpGet (instrumentsUrl host apiPort)
        ∈ mainEffects true hostGiven haveKey autoEnsure restartServer host apiPort
            remoteTag uploadDsts := by
  cases hostGiven <;>
    simp [mainEffects, remoteApplyEffects, Effect.isRemoteShell]

/-- If the wait loop times out, the probe count it reports is at least the
count it started from (probes are only ever added). -/
theorem waitLoop_timedOut_count_ge (timeout : Int) :
    ∀ (probes : List (Option String × Int)) (elapsed : Int) (lastErr : Option String)
      (used : Nat) (d : String) (n : Nat),
      waitLoop timeout probes elapsed lastErr used = .timedOut d n → used ≤ n := by
  intro probes
  induction probes with
  | nil =>
    intro elapsed lastErr used d n h
    by_cases he : elapsed > timeout
    · simp only [waitLoop, he, if_pos] at h
      cases h
      exact Nat.le_refl _
    · simp only [waitLoop, he, if_neg, not_false_eq_true] at h
      cases h
  | cons p rest ih =>
    obtain ⟨r, dur⟩ := p
    intro elapsed lastErr used d n h
    by_cases he : elapsed > timeout
    · simp only [waitLoop, he, if_pos] at h
      cases h
      exact Nat.le_refl _
    · simp only [waitLoop, he, if_neg, not_false_eq_true] at h
      cases r with
      | none => cases h
      | some e =>
        exact Nat.le_of_succ_le (ih (elapsed + dur) (some e) (used + 1) d n h)

/-- If the wait loop times out, the raised detail is either the detail it
started with (when no further probe was issued) or the detail of the last
failed probe it consumed. -/
theorem waitLoop_timedOut_detail (timeout : Int) :
    ∀ (probes : List (Option String × Int)) (elapsed : Int) (lastErr : Option String)
      (used : Nat) (d : String) (n : Nat),
      waitLoop timeout probes elapsed lastErr used = .timedOut d n →
      (n = used ∧ d = lastErr.getD defaultWaitDetail)
      ∨ (∃ e dur, used < n ∧ probes.get? (n - used - 1) = some (some e, dur) ∧ d = e) := by
  intro probes
  induction probes with
  | nil =>
    intro elapsed lastErr used d n h
    by_cases he : elapsed > timeout
    · simp only [waitLoop, he, if_pos] at h
      cases h
      exact Or.inl ⟨rfl, rfl⟩
    · simp only [waitLoop, he, if_neg, not_false_eq_true] at h
      cases h
  | cons p rest ih =>
    obtain ⟨r, dur⟩ := p
    intro elapsed lastErr used d n h
    by_cases he : elapsed > timeout
    · simp only [waitLoop, he, if_pos] at h
      cases h
      exact Or.inl ⟨rfl, rfl⟩
    · simp only [waitLoop, he, if_neg, not_false_eq_true] at h
      cases r with
      | none => cases h
      | some e =>
        rcases ih (elapsed + dur) (some e) (used + 1) d n h with ⟨hn, hd⟩ | ⟨e2, dur2, h1, h2, h3⟩
        · refine Or.inr ⟨e, dur, ?_, ?_, hd⟩
          · omega
          · have : n - used - 1 = 0 := by omega
            rw [this]
            rfl
        · refine Or.inr ⟨e2, dur2, by omega, ?_, h3⟩
          have hk : n - used - 1 = (n - (used + 1) - 1) + 1 := by omega
          rw [hk]
          simpa using h2

/-- Claim C10: for every non-negative timeout the readiness waiter issues at
least one health probe before it can time out (the deadline comparison
against elapsed time is strict, and no time has elapsed at the first check);
for a negative timeout it times out at once, without probing, with the
default detail; and whenever it times out after at least one probe, the
raised detail is exactly the failure detail of the last probe it observed. -/
theorem readiness_waiter_probes_before_timeout :
    (∀ (timeout : Int) (probes : List (Option String × Int)) (d : String) (n : Nat),
        0 ≤ timeout → waitForReady timeout probes = .timedOut d n → 1 ≤ n)
    ∧ (∀ (timeout : Int) (probes : List (Option String × Int)),
        timeout < 0 → waitForReady timeout probes = .timedOut defaultWaitDetail 0)
    ∧ (∀ (timeout : Int) (probes : List (Option String × Int)) (d : String) (n : Nat)
        (e : String) (dur : Int),
        waitForReady timeout probes = .timedOut d n →
        probes.get? (n - 1) = some (some e, dur) → 1 ≤ n → d = e) := by
  refine ⟨?_, ?_, ?_⟩
  · intro timeout probes d n ht h
    have hstart : ¬((0 : Int) > timeout) := by omega
    unfold waitForReady at h
    cases probes with
    | nil =>
      simp only [waitLoop, hstart, if_neg, not_false_eq_true] at h
      cases h
    | cons p rest =>
      obtain ⟨r, dur⟩ := p
      simp only [waitLoop, hstart, if_neg, not_false_eq_true] at h
      cases r with
      | none => cases h
      | some e => exact waitLoop_timedOut_count_ge timeout rest (0 + dur) (some e) 1 d n h
  · intro timeout probes ht
    have hstart : (0 : Int) > timeout := by omega
    unfold waitForReady
    cases probes <;> simp only [waitLoop, hstart, if_pos] <;> rfl
  · intro timeout probes d n e dur h hget hn
    rcases waitLoop_timedOut_detail timeout probes 0 none 0 d n h with ⟨hzero, _⟩ | ⟨e2, dur2, _, h2, h3⟩
    · omega
    · simp only [Nat.sub_zero] at h2
      rw [hget] at h2
      cases h2
      exact h3

/-- Witness for C10: with timeout 3 and two failing probes of duration 2
each, the waiter probes twice, then times out carrying the second probe's
failure detail; with a negative timeout it times out before any probe. -/
theorem readiness_waiter_probes_before_timeout_witness :
    waitForReady 3 [(some "e1", 2), (some "e2", 2)] = .timedOut "e2" 2
    ∧ 1 ≤ 2
    ∧ "e2" = "e2"
    ∧ waitForReady (-1) [(none, 2)] = .timedOut defaultWaitDetail 0 :=
  ⟨by decide,
   readiness_waiter_probes_before_timeout.1 3 [(some "e1", 2), (some "e2", 2)]
     "e2" 2 (by decide) (by decide),
   readiness_waiter_probes_before_timeout.2.2 3 [(some "e1", 2), (some "e2", 2)]
     "e2" 2 "e2" 2 (by decide) (by decide) (by decide),
   readiness_waiter_probes_before_timeout.2.1 (-1) [(none, 2)] (by decide)⟩

end ApplyStandardOffsets
